import Mathlib

/-!
Verification development for the GameControllerView backend.

The Go source is shallowly embedded: Go structs become Lean structures,
`float64` fields become `ℚ` (the normalization, deadzone and delta-tolerance
code performs only division, subtraction, absolute value and comparison, for
which exact rational arithmetic preserves all compared bounds), `int16`
values become `Int` with explicit two's-complement wraparound where the Go
code performs `int16` arithmetic, and pointer-valued optional fields become
`Option`.  Channels and goroutines are modelled by explicit event lists and
pure step functions.
-/

namespace GameControllerView

/-! ## State model (backend/internal/gamepad/state.go) -/

structure Vector where
  X : ℚ
  Y : ℚ
deriving DecidableEq

structure StickState where
  Position : Vector
  Pressed : Bool
deriving DecidableEq

structure TriggerState where
  Value : ℚ
deriving DecidableEq

structure ButtonState where
  A : Bool
  B : Bool
  X : Bool
  Y : Bool
  LB : Bool
  RB : Bool
  Select : Bool
  Start : Bool
  Home : Bool
deriving DecidableEq

structure DpadState where
  Up : Bool
  Down : Bool
  Left : Bool
  Right : Bool
deriving DecidableEq

structure SticksState where
  Left : StickState
  Right : StickState
deriving DecidableEq

structure TriggersState where
  LT : TriggerState
  RT : TriggerState
deriving DecidableEq

structure GamepadState where
  Connected : Bool
  ControllerType : String
  Name : String
  Buttons : ButtonState
  Dpad : DpadState
  Sticks : SticksState
  Triggers : TriggersState
deriving DecidableEq

/-- The zero value `GamepadState{}` of Go. -/
def GamepadState.zero : GamepadState :=
  { Connected := false
    ControllerType := ""
    Name := ""
    Buttons := ⟨false, false, false, false, false, false, false, false, false⟩
    Dpad := ⟨false, false, false, false⟩
    Sticks := ⟨⟨⟨0, 0⟩, false⟩, ⟨⟨0, 0⟩, false⟩⟩
    Triggers := ⟨⟨0⟩, ⟨0⟩⟩ }

/-- Sparse diff; a `none` field models a `nil` pointer in the Go struct. -/
structure DeltaChanges where
  Connected : Option Bool
  ControllerType : Option String
  Name : Option String
  Buttons : Option ButtonState
  Dpad : Option DpadState
  Sticks : Option SticksState
  Triggers : Option TriggersState
deriving DecidableEq

/-- `DeltaChanges.IsEmpty`: all seven pointer fields are nil. -/
def DeltaChanges.IsEmpty (d : DeltaChanges) : Bool :=
  d.Connected.isNone && d.ControllerType.isNone && d.Name.isNone &&
  d.Buttons.isNone && d.Dpad.isNone && d.Sticks.isNone && d.Triggers.isNone

/-- `analogThreshold` constant of state.go. -/
def analogThreshold : ℚ := 1 / 100

/-- `floatEqual`: true when the two values differ by less than the analog
tolerance. -/
def floatEqual (a b : ℚ) : Bool := |a - b| < analogThreshold

/-- `ComputeDelta(old, new_)` of state.go: field-by-field sparse diff,
value equality for scalar/boolean fields and `floatEqual` tolerance for
the analog stick and trigger values. -/
def ComputeDelta (old new_ : GamepadState) : DeltaChanges :=
  { Connected := if old.Connected ≠ new_.Connected then some new_.Connected else none
    ControllerType :=
      if old.ControllerType ≠ new_.ControllerType then some new_.ControllerType else none
    Name := if old.Name ≠ new_.Name then some new_.Name else none
    Buttons := if old.Buttons ≠ new_.Buttons then some new_.Buttons else none
    Dpad := if old.Dpad ≠ new_.Dpad then some new_.Dpad else none
    Sticks :=
      if !floatEqual old.Sticks.Left.Position.X new_.Sticks.Left.Position.X ||
         !floatEqual old.Sticks.Left.Position.Y new_.Sticks.Left.Position.Y ||
         old.Sticks.Left.Pressed != new_.Sticks.Left.Pressed ||
         !floatEqual old.Sticks.Right.Position.X new_.Sticks.Right.Position.X ||
         !floatEqual old.Sticks.Right.Position.Y new_.Sticks.Right.Position.Y ||
         old.Sticks.Right.Pressed != new_.Sticks.Right.Pressed
      then some new_.Sticks else none
    Triggers :=
      if !floatEqual old.Triggers.LT.Value new_.Triggers.LT.Value ||
         !floatEqual old.Triggers.RT.Value new_.Triggers.RT.Value
      then some new_.Triggers else none }

/-! ## Normalization (backend/internal/gamepad/mapping.go) -/

/-- `NormalizeAxis`: divide by `math.MaxInt16` and clamp the negative
extreme to -1.0. -/
def NormalizeAxis (raw : Int) : ℚ :=
  let v : ℚ := (raw : ℚ) / 32767
  if v < -1 then -1 else v

/-- Two's-complement wraparound of an integer into the `int16` range,
modelling Go `int16` subtraction overflow. -/
def wrap16 (n : Int) : Int := (n + 32768) % 65536 - 32768

/-- `NormalizeTrigger`: maps a raw sub-range linearly onto [0,1] with
clamping; returns 0 on a degenerate range.  The Go subtractions
`raw-rawMin` and `rawMax-rawMin` are `int16` operations, hence the
wraparound. -/
def NormalizeTrigger (raw rawMin rawMax : Int) : ℚ :=
  if rawMax = rawMin then 0
  else
    let num : Int := wrap16 (raw - rawMin)
    let den : Int := wrap16 (rawMax - rawMin)
    let v : ℚ := (num : ℚ) / (den : ℚ)
    let v1 : ℚ := if v < 0 then 0 else v
    if v1 > 1 then 1 else v1

/-- `ApplyDeadzone`: zero below the threshold, identity otherwise. -/
def ApplyDeadzone (v threshold : ℚ) : ℚ :=
  if |v| < threshold then 0 else v

/-- `deadzone` constant of reader.go. -/
def deadzone : ℚ := 5 / 100

/-! ## Device mapping table (backend/internal/gamepad/mapping.go) -/

structure AxisMapping where
  Index : Int
  Target : String
  IsTrigger : Bool
  Invert : Bool
  RawMin : Int
  RawMax : Int
deriving DecidableEq

structure ButtonMapping where
  Index : Int
  Target : String
deriving DecidableEq

structure DeviceMapping where
  Name : String
  Axes : List AxisMapping
  Buttons : List ButtonMapping
  HasHat : Bool
deriving DecidableEq

def xboxMapping : DeviceMapping :=
  { Name := "xbox"
    Axes :=
      [ ⟨0, "left_x", false, false, 0, 0⟩
      , ⟨1, "left_y", false, true, 0, 0⟩
      , ⟨2, "right_x", false, false, 0, 0⟩
      , ⟨3, "right_y", false, true, 0, 0⟩
      , ⟨4, "lt", true, false, -32768, 32767⟩
      , ⟨5, "rt", true, false, -32768, 32767⟩ ]
    Buttons :=
      [ ⟨0, "a"⟩, ⟨1, "b"⟩, ⟨2, "x"⟩, ⟨3, "y"⟩, ⟨4, "lb"⟩, ⟨5, "rb"⟩
      , ⟨6, "select"⟩, ⟨7, "start"⟩, ⟨8, "l3"⟩, ⟨9, "r3"⟩, ⟨10, "home"⟩ ]
    HasHat := true }

def playstationMapping : DeviceMapping :=
  { Name := "playstation"
    Axes :=
      [ ⟨0, "left_x", false, false, 0, 0⟩
      , ⟨1, "left_y", false, true, 0, 0⟩
      , ⟨2, "right_x", false, false, 0, 0⟩
      , ⟨3, "right_y", false, true, 0, 0⟩
      , ⟨4, "lt", true, false, -32768, 32767⟩
      , ⟨5, "rt", true, false, -32768, 32767⟩ ]
    Buttons :=
      [ ⟨0, "a"⟩, ⟨1, "b"⟩, ⟨2, "x"⟩, ⟨3, "y"⟩, ⟨4, "select"⟩, ⟨5, "home"⟩
      , ⟨6, "start"⟩, ⟨7, "l3"⟩, ⟨8, "r3"⟩, ⟨9, "lb"⟩, ⟨10, "rb"⟩ ]
    HasHat := true }

def switchProMapping : DeviceMapping :=
  { Name := "switch_pro"
    Axes :=
      [ ⟨0, "left_x", false, false, 0, 0⟩
      , ⟨1, "left_y", false, true, 0, 0⟩
      , ⟨2, "right_x", false, false, 0, 0⟩
      , ⟨3, "right_y", false, true, 0, 0⟩ ]
    Buttons :=
      [ ⟨0, "a"⟩, ⟨1, "b"⟩, ⟨2, "x"⟩, ⟨3, "y"⟩, ⟨4, "lb"⟩, ⟨5, "rb"⟩
      , ⟨6, "select"⟩, ⟨7, "start"⟩, ⟨8, "l3"⟩, ⟨9, "r3"⟩, ⟨10, "home"⟩ ]
    HasHat := true }

def genericMapping : DeviceMapping :=
  { Name := "generic"
    Axes :=
      [ ⟨0, "left_x", false, false, 0, 0⟩
      , ⟨1, "left_y", false, true, 0, 0⟩
      , ⟨2, "right_x", false, false, 0, 0⟩
      , ⟨3, "right_y", false, true, 0, 0⟩
      , ⟨4, "lt", true, false, -32768, 32767⟩
      , ⟨5, "rt", true, false, -32768, 32767⟩ ]
    Buttons :=
      [ ⟨0, "a"⟩, ⟨1, "b"⟩, ⟨2, "x"⟩, ⟨3, "y"⟩, ⟨4, "lb"⟩, ⟨5, "rb"⟩
      , ⟨6, "select"⟩, ⟨7, "start"⟩, ⟨8, "l3"⟩, ⟨9, "r3"⟩, ⟨10, "home"⟩ ]
    HasHat := true }

/-- Vendor/product identifier pair; Go `uint16` values become `Nat`. -/
structure deviceKey where
  VendorID : Nat
  ProductID : Nat
deriving DecidableEq, BEq

/-- The `knownDevices` table, in source order; the Go map has unique keys
so an association list is an exact model. -/
def knownDevices : List (deviceKey × DeviceMapping) :=
  [ (⟨0x045E, 0x028E⟩, xboxMapping)
  , (⟨0x045E, 0x02FF⟩, xboxMapping)
  , (⟨0x045E, 0x0B12⟩, xboxMapping)
  , (⟨0x045E, 0x0B13⟩, xboxMapping)
  , (⟨0x054C, 0x0CE6⟩, playstationMapping)
  , (⟨0x054C, 0x09CC⟩, playstationMapping)
  , (⟨0x054C, 0x05C4⟩, playstationMapping)
  , (⟨0x057E, 0x2009⟩, switchProMapping) ]

/-- `GetMapping`: table lookup with generic fallback. -/
def GetMapping (vendorID productID : Nat) : DeviceMapping :=
  match knownDevices.find? (fun e => decide (e.1 = deviceKey.mk vendorID productID)) with
  | some e => e.2
  | none => genericMapping

/-! ## Reader detach handling (backend/internal/gamepad/reader.go) -/

/-- One entry of the Reader's `joysticks` map: instance id, display name,
resolved mapping, and whether `sdl.JoystickConnected` reports it as still
connected at this tick. -/
structure JoyInfo where
  id : Nat
  name : String
  mapping : DeviceMapping
  connected : Bool
deriving DecidableEq

/-- Reader state relevant to `removeJoystick`.  The `joysticks` field is the
Go map in its iteration order; Go leaves map iteration order unspecified, so
any permutation of the entries is an admissible value here. -/
structure ReaderM where
  joysticks : List JoyInfo
  activeID : Nat
  hasActive : Bool
  state : GamepadState
deriving DecidableEq

/-- `Reader.removeJoystick`: delete the entry; if it was active, either emit
the zero state (no device left) or promote the first still-connected device
in map-iteration order, emitting a state carrying its name and mapping name.
Returns the new reader state and the list of `emitState` payloads. -/
def removeJoystick (r : ReaderM) (instanceID : Nat) : ReaderM × List GamepadState :=
  match r.joysticks.find? (fun j => j.id == instanceID) with
  | none => (r, [])
  | some _ =>
    let joys := r.joysticks.filter (fun j => !(j.id == instanceID))
    if r.hasActive && (r.activeID == instanceID) then
      if joys.isEmpty then
        ({ joysticks := joys, activeID := r.activeID, hasActive := false
           state := GamepadState.zero }, [GamepadState.zero])
      else
        match joys.find? (fun j => j.connected) with
        | some js =>
          let st := { r.state with Connected := true, Name := js.name
                                   ControllerType := js.mapping.Name }
          ({ joysticks := joys, activeID := js.id, hasActive := true
             state := st }, [st])
        | none =>
          ({ joysticks := joys, activeID := r.activeID, hasActive := false
             state := r.state }, [])
    else
      ({ r with joysticks := joys }, [])

/-! ## Wire messages (backend/internal/hub/message.go)

The `Timestamp` field (wall-clock milliseconds) is outside the embedding;
every other field of `WSMessage` is kept. -/

structure WSMessage where
  type : String
  Seq : Int
  Event : String
  Data : Option GamepadState
  Changes : Option DeltaChanges
  PlayerIndex : Int
deriving DecidableEq

def NewFullMessage (seq : Int) (state : GamepadState) : WSMessage :=
  { type := "full", Seq := seq, Event := "", Data := some state
    Changes := none, PlayerIndex := 0 }

def NewDeltaMessage (seq : Int) (changes : DeltaChanges) : WSMessage :=
  { type := "delta", Seq := seq, Event := "", Data := none
    Changes := some changes, PlayerIndex := 0 }

/-- `NewPlayerSelectedMessage` hard-codes `Seq: 0`. -/
def NewPlayerSelectedMessage (playerIndex : Int) : WSMessage :=
  { type := "player_selected", Seq := 0, Event := "", Data := none
    Changes := none, PlayerIndex := playerIndex }

structure ClientMessage where
  type : String
  PlayerIndex : Int
deriving DecidableEq

/-! ## Hub (backend/internal/hub/hub.go) -/

/-- A registered client as the hub sees it: subscribed player index, the
outbound `send` queue contents, and whether a forced unregistration has been
scheduled (the `go func { h.unregister <- c }` path). -/
structure ClientM (α : Type) where
  playerIndex : Int
  send : List α
  scheduledUnregister : Bool
deriving DecidableEq

/-- Capacity of a client's `send` channel (`make(chan []byte, 256)`). -/
def clientSendCapacity : Nat := 256

/-- The non-blocking `select { case client.send <- msg: default: ... }`:
enqueue when the buffered channel has room, otherwise schedule the client
for forced unregistration. -/
def trySendToClient {α : Type} (c : ClientM α) (msg : α) : ClientM α :=
  if c.send.length < clientSendCapacity then
    { c with send := c.send ++ [msg] }
  else
    { c with scheduledUnregister := true }

/-- `Hub.BroadcastToPlayer`: deliver only to clients whose subscribed player
index matches the target. -/
def BroadcastToPlayer {α : Type} (clients : List (ClientM α)) (msg : α)
    (playerIndex : Int) : List (ClientM α) :=
  clients.map (fun c =>
    if c.playerIndex = playerIndex then trySendToClient c msg else c)

/-! ## Client read pump (backend/internal/hub/client.go) -/

/-- The client-side session state touched by `ReadPumpWithHandler`. -/
structure ClientSession where
  playerIndex : Int
deriving DecidableEq

/-- One iteration of `ReadPumpWithHandler` on a parsed inbound message.
`setActiveByPlayerIndex` abstracts the Reader passed through the
`PlayerSwitcher` interface.  Returns the updated session, the confirmation
messages pushed onto this client's queue, and whether the read loop keeps
the connection open. -/
def handleClientMessage (setActiveByPlayerIndex : Int → Bool)
    (c : ClientSession) (m : ClientMessage) :
    ClientSession × List WSMessage × Bool :=
  if m.type = "select_player" then
    if setActiveByPlayerIndex m.PlayerIndex then
      ({ playerIndex := m.PlayerIndex }, [NewPlayerSelectedMessage m.PlayerIndex], true)
    else
      (c, [], true)
  else
    (c, [], true)

/-! ## Broadcaster (backend/internal/hub/broadcast.go) -/

/-- `deltaCountSync` constant. -/
def deltaCountSync : Int := 100

/-- Broadcaster loop state: `lastState` and `seq` from the struct plus the
local `deltaCount` variable of `Run`. -/
structure BState where
  lastState : GamepadState
  seq : Int
  deltaCount : Int
deriving DecidableEq

/-- An event consumed by `Broadcaster.Run`: a state received on the changes
channel, or a tick of the 5-second full-sync ticker. -/
inductive BEvent where
  | change (s : GamepadState)
  | tick
deriving DecidableEq

/-- One iteration of the `select` in `Broadcaster.Run`, returning the new
state and the messages handed to the hub (in order). -/
def broadcasterStep (b : BState) (e : BEvent) : BState × List WSMessage :=
  match e with
  | .change s =>
    let delta := ComputeDelta b.lastState s
    if delta.IsEmpty then
      ({ b with lastState := s }, [])
    else if b.deltaCount + 1 ≥ deltaCountSync then
      ({ lastState := s, seq := b.seq + 1, deltaCount := 0 },
       [NewFullMessage (b.seq + 1) s])
    else
      ({ lastState := s, seq := b.seq + 1, deltaCount := b.deltaCount + 1 },
       [NewDeltaMessage (b.seq + 1) delta])
  | .tick =>
    if b.lastState.Connected then
      ({ b with seq := b.seq + 1 }, [NewFullMessage (b.seq + 1) b.lastState])
    else
      (b, [])

/-- `Broadcaster.Run` over a finite event sequence: concatenation of the
emissions of each step. -/
def broadcasterRun : BState → List BEvent → List WSMessage
  | _, [] => []
  | b, e :: es =>
    let p := broadcasterStep b e
    p.2 ++ broadcasterRun p.1 es

/-- `Broadcaster.SendInitialState`: bump the shared counter and build a full
message of the most recent snapshot for the new client. -/
def SendInitialState (b : BState) : BState × WSMessage :=
  ({ b with seq := b.seq + 1 }, NewFullMessage (b.seq + 1) b.lastState)

/-- Client-side merge of a delta into a state: each present field of the
delta overwrites the corresponding field, absent fields are kept.
Formalizes the overwrite semantics the delta protocol assumes of clients. -/
def applyDelta (s : GamepadState) (d : DeltaChanges) : GamepadState :=
  { Connected := d.Connected.getD s.Connected
    ControllerType := d.ControllerType.getD s.ControllerType
    Name := d.Name.getD s.Name
    Buttons := d.Buttons.getD s.Buttons
    Dpad := d.Dpad.getD s.Dpad
    Sticks := d.Sticks.getD s.Sticks
    Triggers := d.Triggers.getD s.Triggers }

/-! ## Helper lemmas -/

lemma isSome_ite_some {α : Type} (c : Prop) [Decidable c] (a : α) :
    (if c then some a else none).isSome = true ↔ c := by
  split <;> simp_all

lemma isNone_ite_some {α : Type} (c : Prop) [Decidable c] (a : α) :
    (if c then some a else none) = none ↔ ¬c := by
  split <;> simp_all

/-! ## Theorems -/

/-- C9: `ApplyDeadzone` returns 0 when `|v| < t`, returns `v` unchanged
otherwise, and is idempotent. -/
theorem applyDeadzone_spec (v t : ℚ) :
    (|v| < t → ApplyDeadzone v t = 0) ∧
    (t ≤ |v| → ApplyDeadzone v t = v) ∧
    ApplyDeadzone (ApplyDeadzone v t) t = ApplyDeadzone v t := by
  refine ⟨fun h => by simp [ApplyDeadzone, h],
          fun h => by simp [ApplyDeadzone, not_lt.mpr h], ?_⟩
  by_cases h : |v| < t
  · have h0 : ApplyDeadzone v t = 0 := by simp [ApplyDeadzone, h]
    rw [h0]
    simp [ApplyDeadzone]
  · have h0 : ApplyDeadzone v t = v := by simp [ApplyDeadzone, h]
    rw [h0]
    exact h0

/-- Witness for C9 at concrete inputs. -/
theorem applyDeadzone_spec_witness :
    ApplyDeadzone (1 / 100) (5 / 100) = 0 ∧ ApplyDeadzone (1 / 2) (5 / 100) = 1 / 2 :=
  ⟨(applyDeadzone_spec (1 / 100) (5 / 100)).1 (by norm_num [abs]),
   (applyDeadzone_spec (1 / 2) (5 / 100)).2.1 (by norm_num [abs])⟩

/-- C2: `NormalizeAxis` stays in [-1,1] over the int16 range;
`NormalizeTrigger` stays in [0,1] for a non-degenerate range; a degenerate
range yields 0 rather than a division. -/
theorem normalize_bounds (raw rawMin rawMax : Int)
    (h1 : -32768 ≤ raw) (h2 : raw ≤ 32767) :
    (-1 ≤ NormalizeAxis raw ∧ NormalizeAxis raw ≤ 1) ∧
    (rawMax ≠ rawMin →
      0 ≤ NormalizeTrigger raw rawMin rawMax ∧
      NormalizeTrigger raw rawMin rawMax ≤ 1) ∧
    NormalizeTrigger raw rawMin rawMin = 0 := by
  refine ⟨?_, ?_, by simp [NormalizeTrigger]⟩
  · simp only [NormalizeAxis]
    split_ifs with hv
    · constructor
      · exact le_refl _
      · norm_num
    · constructor
      · linarith [not_lt.mp hv]
      · rw [div_le_one (by norm_num : (0 : ℚ) < 32767)]
        exact_mod_cast h2
  · intro hne
    simp only [NormalizeTrigger, if_neg hne]
    split_ifs with hv hv1 hv1
    · constructor <;> norm_num
    · constructor <;> norm_num
    · constructor <;> norm_num
    · push_neg at hv hv1
      exact ⟨hv, hv1⟩

/-- Witness for C2 at concrete inputs. -/
theorem normalize_bounds_witness :
    (-1 ≤ NormalizeAxis 0 ∧ NormalizeAxis 0 ≤ 1) ∧
    (0 ≤ NormalizeTrigger 0 (-32768) 32767 ∧
      NormalizeTrigger 0 (-32768) 32767 ≤ 1) ∧
    NormalizeTrigger 5 7 7 = 0 :=
  ⟨(normalize_bounds 0 (-32768) 32767 (by norm_num) (by norm_num)).1,
   (normalize_bounds 0 (-32768) 32767 (by norm_num) (by norm_num)).2.1 (by norm_num),
   (normalize_bounds 5 7 7 (by norm_num) (by norm_num)).2.2⟩

/-- C1: `ComputeDelta s s` is empty; each scalar/boolean field is present in
the delta exactly when it differs by value equality; the sticks field is
present exactly when a position component moves by at least the analog
tolerance or a pressed flag differs; the triggers field exactly when a
trigger value moves by at least the tolerance; and the delta is empty exactly
when nothing differs that much. -/
theorem computeDelta_spec (s old new_ : GamepadState) :
    (ComputeDelta s s).IsEmpty = true ∧
    ((ComputeDelta old new_).Connected.isSome = true ↔
      old.Connected ≠ new_.Connected) ∧
    ((ComputeDelta old new_).ControllerType.isSome = true ↔
      old.ControllerType ≠ new_.ControllerType) ∧
    ((ComputeDelta old new_).Name.isSome = true ↔ old.Name ≠ new_.Name) ∧
    ((ComputeDelta old new_).Buttons.isSome = true ↔ old.Buttons ≠ new_.Buttons) ∧
    ((ComputeDelta old new_).Dpad.isSome = true ↔ old.Dpad ≠ new_.Dpad) ∧
    ((ComputeDelta old new_).Sticks.isSome = true ↔
      (analogThreshold ≤ |old.Sticks.Left.Position.X - new_.Sticks.Left.Position.X| ∨
       analogThreshold ≤ |old.Sticks.Left.Position.Y - new_.Sticks.Left.Position.Y| ∨
       old.Sticks.Left.Pressed ≠ new_.Sticks.Left.Pressed ∨
       analogThreshold ≤ |old.Sticks.Right.Position.X - new_.Sticks.Right.Position.X| ∨
       analogThreshold ≤ |old.Sticks.Right.Position.Y - new_.Sticks.Right.Position.Y| ∨
       old.Sticks.Right.Pressed ≠ new_.Sticks.Right.Pressed)) ∧
    ((ComputeDelta old new_).Triggers.isSome = true ↔
      (analogThreshold ≤ |old.Triggers.LT.Value - new_.Triggers.LT.Value| ∨
       analogThreshold ≤ |old.Triggers.RT.Value - new_.Triggers.RT.Value|)) ∧
    ((ComputeDelta old new_).IsEmpty = true ↔
      (old.Connected = new_.Connected ∧ old.ControllerType = new_.ControllerType ∧
       old.Name = new_.Name ∧ old.Buttons = new_.Buttons ∧ old.Dpad = new_.Dpad ∧
       |old.Sticks.Left.Position.X - new_.Sticks.Left.Position.X| < analogThreshold ∧
       |old.Sticks.Left.Position.Y - new_.Sticks.Left.Position.Y| < analogThreshold ∧
       old.Sticks.Left.Pressed = new_.Sticks.Left.Pressed ∧
       |old.Sticks.Right.Position.X - new_.Sticks.Right.Position.X| < analogThreshold ∧
       |old.Sticks.Right.Position.Y - new_.Sticks.Right.Position.Y| < analogThreshold ∧
       old.Sticks.Right.Pressed = new_.Sticks.Right.Pressed ∧
       |old.Triggers.LT.Value - new_.Triggers.LT.Value| < analogThreshold ∧
       |old.Triggers.RT.Value - new_.Triggers.RT.Value| < analogThreshold)) := by
  refine ⟨?_, ?_, ?_, ?_, ?_, ?_, ?_, ?_, ?_⟩
  · simp [ComputeDelta, DeltaChanges.IsEmpty, floatEqual, analogThreshold]
  · simp [ComputeDelta, isSome_ite_some]
  · simp [ComputeDelta, isSome_ite_some]
  · simp [ComputeDelta, isSome_ite_some]
  · simp [ComputeDelta, isSome_ite_some]
  · simp [ComputeDelta, isSome_ite_some]
  · simp [ComputeDelta, isSome_ite_some, floatEqual, not_lt]
    tauto
  · simp [ComputeDelta, isSome_ite_some, floatEqual, not_lt]
  · simp [ComputeDelta, DeltaChanges.IsEmpty, isNone_ite_some, floatEqual, not_lt,
      Option.isNone_iff_eq_none]
    tauto

/-- C10: every field present in `ComputeDelta old new_` carries the value of
`new_` (never of `old`), and merging the delta into any client-side state `c`
makes each present field equal to `new_`'s while absent fields keep `c`'s. -/
theorem computeDelta_fields_from_current (old new_ c : GamepadState) :
    (((ComputeDelta old new_).Connected = none ∧
        (applyDelta c (ComputeDelta old new_)).Connected = c.Connected) ∨
      ((ComputeDelta old new_).Connected = some new_.Connected ∧
        (applyDelta c (ComputeDelta old new_)).Connected = new_.Connected)) ∧
    (((ComputeDelta old new_).ControllerType = none ∧
        (applyDelta c (ComputeDelta old new_)).ControllerType = c.ControllerType) ∨
      ((ComputeDelta old new_).ControllerType = some new_.ControllerType ∧
        (applyDelta c (ComputeDelta old new_)).ControllerType = new_.ControllerType)) ∧
    (((ComputeDelta old new_).Name = none ∧
        (applyDelta c (ComputeDelta old new_)).Name = c.Name) ∨
      ((ComputeDelta old new_).Name = some new_.Name ∧
        (applyDelta c (ComputeDelta old new_)).Name = new_.Name)) ∧
    (((ComputeDelta old new_).Buttons = none ∧
        (applyDelta c (ComputeDelta old new_)).Buttons = c.Buttons) ∨
      ((ComputeDelta old new_).Buttons = some new_.Buttons ∧
        (applyDelta c (ComputeDelta old new_)).Buttons = new_.Buttons)) ∧
    (((ComputeDelta old new_).Dpad = none ∧
        (applyDelta c (ComputeDelta old new_)).Dpad = c.Dpad) ∨
      ((ComputeDelta old new_).Dpad = some new_.Dpad ∧
        (applyDelta c (ComputeDelta old new_)).Dpad = new_.Dpad)) ∧
    (((ComputeDelta old new_).Sticks = none ∧
        (applyDelta c (ComputeDelta old new_)).Sticks = c.Sticks) ∨
      ((ComputeDelta old new_).Sticks = some new_.Sticks ∧
        (applyDelta c (ComputeDelta old new_)).Sticks = new_.Sticks)) ∧
    (((ComputeDelta old new_).Triggers = none ∧
        (applyDelta c (ComputeDelta old new_)).Triggers = c.Triggers) ∨
      ((ComputeDelta old new_).Triggers = some new_.Triggers ∧
        (applyDelta c (ComputeDelta old new_)).Triggers = new_.Triggers)) := by
  refine ⟨?_, ?_, ?_, ?_, ?_, ?_, ?_⟩ <;>
    · simp only [ComputeDelta, applyDelta]
      split <;> simp

/-- C3: `GetMapping` always yields a mapping (one of the registered profiles
or the generic one); a pair registered in `knownDevices` yields its specific
profile; an unregistered pair always yields `genericMapping`.  `GetMapping`
is a pure function of its two arguments, so the unregistered result is
identical across repeated calls and no state changes. -/
theorem getMapping_spec (v p : Nat) :
    (GetMapping v p = genericMapping ∨
      ∃ k m, (k, m) ∈ knownDevices ∧ GetMapping v p = m) ∧
    (∀ m, (deviceKey.mk v p, m) ∈ knownDevices → GetMapping v p = m) ∧
    (deviceKey.mk v p ∉ knownDevices.map Prod.fst →
      GetMapping v p = genericMapping) := by
  refine ⟨?_, ?_, ?_⟩
  · rcases h : knownDevices.find? (fun e => decide (e.1 = deviceKey.mk v p)) with _ | e
    · left
      simp [GetMapping, h]
    · right
      refine ⟨e.1, e.2, List.mem_of_find?_eq_some h, ?_⟩
      simp [GetMapping, h]
  · intro m hm
    simp only [knownDevices, List.mem_cons, List.not_mem_nil, or_false] at hm
    rcases hm with h | h | h | h | h | h | h | h <;>
      · simp only [Prod.mk.injEq, deviceKey.mk.injEq] at h
        obtain ⟨⟨hv, hp⟩, hm'⟩ := h
        subst hv
        subst hp
        subst hm'
        rfl
  · intro hnm
    have h0 : knownDevices.find? (fun e => decide (e.1 = deviceKey.mk v p)) = none := by
      rw [List.find?_eq_none]
      intro e he hbeq
      exact hnm (List.mem_map.mpr ⟨e, he, of_decide_eq_true hbeq⟩)
    simp [GetMapping, h0]

/-- Witness for C3: a registered pair resolves to its profile, an
unregistered pair to the generic profile. -/
theorem getMapping_spec_witness :
    GetMapping 0x054C 0x0CE6 = playstationMapping ∧
    GetMapping 0x1234 0x5678 = genericMapping :=
  ⟨(getMapping_spec 0x054C 0x0CE6).2.1 playstationMapping (by
      simp [knownDevices]),
   (getMapping_spec 0x1234 0x5678).2.2 (by
      norm_num [knownDevices, deviceKey.mk.injEq])⟩

/-- C6: `BroadcastToPlayer` enqueues the message exactly onto the queues of
clients whose subscribed player index equals the target: a client with a
different index is unchanged; a matching client with queue room gets the
message appended; a matching client with a full queue keeps its queue and is
scheduled for forced unregistration.  The function is pure, so no other
client and no producer state is affected. -/
theorem broadcastToPlayer_spec {α : Type} (clients : List (ClientM α))
    (msg : α) (pi : Int) (i : Nat) (c : ClientM α)
    (h : clients[i]? = some c) :
    (c.playerIndex ≠ pi → (BroadcastToPlayer clients msg pi)[i]? = some c) ∧
    (c.playerIndex = pi → c.send.length < clientSendCapacity →
      (BroadcastToPlayer clients msg pi)[i]? =
        some { c with send := c.send ++ [msg] }) ∧
    (c.playerIndex = pi → ¬ c.send.length < clientSendCapacity →
      (BroadcastToPlayer clients msg pi)[i]? =
        some { c with scheduledUnregister := true }) := by
  refine ⟨?_, ?_, ?_⟩
  · intro hne
    simp [BroadcastToPlayer, List.getElem?_map, h, hne]
  · intro heq hroom
    simp [BroadcastToPlayer, List.getElem?_map, h, heq, trySendToClient, hroom]
  · intro heq hfull
    simp [BroadcastToPlayer, List.getElem?_map, h, heq, trySendToClient, hfull]

set_option maxRecDepth 8000 in
/-- Witness for C6: one mismatched client untouched, one matching client
with room receives the message, one matching client with a full queue is
scheduled for unregistration. -/
theorem broadcastToPlayer_spec_witness :
    (BroadcastToPlayer [ClientM.mk 2 [] false] (0 : Nat) 1)[0]? =
        some (ClientM.mk 2 [] false) ∧
    (BroadcastToPlayer [ClientM.mk 1 [] false] (0 : Nat) 1)[0]? =
        some (ClientM.mk 1 [0] false) ∧
    (BroadcastToPlayer [ClientM.mk 1 (List.replicate 256 7) false] (0 : Nat) 1)[0]? =
        some (ClientM.mk 1 (List.replicate 256 7) true) :=
  ⟨(broadcastToPlayer_spec [ClientM.mk 2 [] false] 0 1 0 (ClientM.mk 2 [] false)
      rfl).1 (by decide),
   (broadcastToPlayer_spec [ClientM.mk 1 [] false] 0 1 0 (ClientM.mk 1 [] false)
      rfl).2.1 rfl (by decide),
   (broadcastToPlayer_spec [ClientM.mk 1 (List.replicate 256 7) false] 0 1 0
      (ClientM.mk 1 (List.replicate 256 7) false) rfl).2.2 rfl
      (by simp [clientSendCapacity, List.length_replicate])⟩

/-- C7: on `{type:"select_player", playerIndex:n}`, when the Reader's
`setActiveByPlayerIndex n` succeeds, the client's player index becomes `n`
and exactly one `player_selected` confirmation for `n` is pushed to that
client; when it fails, the session is unchanged, nothing is sent, and the
connection stays open in both cases. -/
theorem handleClientMessage_select (sw : Int → Bool) (c : ClientSession) (n : Int) :
    (sw n = true →
      handleClientMessage sw c (ClientMessage.mk "select_player" n) =
        (ClientSession.mk n, [NewPlayerSelectedMessage n], true)) ∧
    (sw n = false →
      handleClientMessage sw c (ClientMessage.mk "select_player" n) =
        (c, [], true)) := by
  constructor
  · intro h
    simp [handleClientMessage, h]
  · intro h
    simp [handleClientMessage, h]

/-- Witness for C7: a succeeding switch updates the subscription and sends
the confirmation; selecting player 99 when the switcher refuses leaves the
session at player 1 with no confirmation and the connection open. -/
theorem handleClientMessage_select_witness :
    handleClientMessage (fun k => decide (k = 2)) (ClientSession.mk 1)
        (ClientMessage.mk "select_player" 2) =
      (ClientSession.mk 2, [NewPlayerSelectedMessage 2], true) ∧
    handleClientMessage (fun _ => false) (ClientSession.mk 1)
        (ClientMessage.mk "select_player" 99) =
      (ClientSession.mk 1, [], true) :=
  ⟨(handleClientMessage_select (fun k => decide (k = 2)) (ClientSession.mk 1) 2).1
      (by decide),
   (handleClientMessage_select (fun _ => false) (ClientSession.mk 1) 99).2 rfl⟩

/-! ### C8: promotion on detach

Ghost data for stating C8: the order in which the three devices of the
counterexample were attached is 1 (A), then 2 (B), then 3 (C).  The Go
`joysticks` map does not record that order, and `removeJoystick` iterates
the map in Go's unspecified map order; the reader state below uses the
admissible iteration order C before B. -/

def joyB : JoyInfo := { id := 2, name := "B", mapping := genericMapping, connected := true }

def joyC : JoyInfo := { id := 3, name := "C", mapping := genericMapping, connected := true }

def readerThreeDevices : ReaderM :=
  { joysticks :=
      [ { id := 1, name := "A", mapping := genericMapping, connected := true }
      , joyC, joyB ]
    activeID := 1
    hasActive := true
    state := { GamepadState.zero with Connected := true, Name := "A"
                                      ControllerType := "generic" } }

/-- Counterexample to C8 as stated: with devices attached in order
A(id 1), B(id 2), C(id 3), A active, and a map iteration order placing C
before B, detaching A promotes C (id 3), not the next device in connection
order (B, id 2). -/
theorem removeJoystick_cex :
    (removeJoystick readerThreeDevices 1).1.hasActive = true ∧
    (removeJoystick readerThreeDevices 1).1.activeID = 3 ∧
    ¬ (removeJoystick readerThreeDevices 1).1.activeID = 2 := by
  refine ⟨?_, ?_, ?_⟩ <;> decide

/-- C8 (amended): detaching the active device promotes the first
still-connected remaining device in map-iteration order — in particular,
when exactly one device `b` remains and it is connected (the two-device
scenario), `b` is promoted and the emitted state carries `b`'s name and
mapping name with `Connected = true`; when no device remains, the zeroed
disconnected state is stored and emitted. -/
theorem removeJoystick_promotes (r : ReaderM) (b : JoyInfo)
    (hact : r.hasActive = true)
    (hmem : (r.joysticks.find? (fun j => j.id == r.activeID)).isSome = true) :
    (r.joysticks.filter (fun j => !(j.id == r.activeID)) = [b] →
      b.connected = true →
      (removeJoystick r r.activeID).1.hasActive = true ∧
      (removeJoystick r r.activeID).1.activeID = b.id ∧
      (removeJoystick r r.activeID).2 = [(removeJoystick r r.activeID).1.state] ∧
      (removeJoystick r r.activeID).1.state.Connected = true ∧
      (removeJoystick r r.activeID).1.state.Name = b.name ∧
      (removeJoystick r r.activeID).1.state.ControllerType = b.mapping.Name) ∧
    (r.joysticks.filter (fun j => !(j.id == r.activeID)) = [] →
      (removeJoystick r r.activeID).1.state = GamepadState.zero ∧
      (removeJoystick r r.activeID).2 = [GamepadState.zero]) := by
  obtain ⟨j, hj⟩ := Option.isSome_iff_exists.mp hmem
  constructor
  · intro hone hconn
    simp [removeJoystick, hj, hact, hone, hconn, List.find?]
  · intro hnone
    simp [removeJoystick, hj, hact, hnone]

/-- Witness for C8 (amended): both the two-device promotion scenario and
the last-device detach scenario at concrete inputs. -/
theorem removeJoystick_promotes_witness :
    ((removeJoystick
        (ReaderM.mk [JoyInfo.mk 1 "A" genericMapping true, joyB] 1 true
          GamepadState.zero) 1).1.activeID = 2 ∧
      (removeJoystick
        (ReaderM.mk [JoyInfo.mk 1 "A" genericMapping true, joyB] 1 true
          GamepadState.zero) 1).1.state.Name = "B") ∧
    (removeJoystick
        (ReaderM.mk [JoyInfo.mk 1 "A" genericMapping true] 1 true
          GamepadState.zero) 1).2 = [GamepadState.zero] := by
  have h1 := removeJoystick_promotes
    (ReaderM.mk [JoyInfo.mk 1 "A" genericMapping true, joyB] 1 true
      GamepadState.zero) joyB rfl (by decide)
  have h2 := removeJoystick_promotes
    (ReaderM.mk [JoyInfo.mk 1 "A" genericMapping true] 1 true
      GamepadState.zero) joyB rfl (by decide)
  exact ⟨⟨(h1.1 (by decide) rfl).2.1, by
      rw [(h1.1 (by decide) rfl).2.2.2.2.1]
      rfl⟩,
    (h2.2 (by decide)).2⟩

/-! ### C5: sequence numbers -/

/-- A connected-but-idle snapshot, used by the concrete broadcaster runs. -/
def stConnected : GamepadState := { GamepadState.zero with Connected := true }

lemma broadcasterRun_seq_lt (evs : List BEvent) :
    ∀ b : BState,
      (∀ x ∈ (broadcasterRun b evs).map WSMessage.Seq, b.seq < x) ∧
      ((broadcasterRun b evs).map WSMessage.Seq).Pairwise (· < ·) := by
  induction evs with
  | nil =>
    intro b
    simp [broadcasterRun]
  | cons e es ih =>
    intro b
    cases e with
    | change s =>
      by_cases hE : (ComputeDelta b.lastState s).IsEmpty
      · simpa [broadcasterRun, broadcasterStep, hE] using
          ih { b with lastState := s }
      · by_cases hdc : b.deltaCount + 1 ≥ deltaCountSync
        · have h := ih { lastState := s, seq := b.seq + 1, deltaCount := 0 }
          simp only [broadcasterRun, broadcasterStep, hE, hdc] at h ⊢
          simp only [if_neg (by simp [hE] : ¬(ComputeDelta b.lastState s).IsEmpty = true)] at *
          constructor
          · intro x hx
            simp [NewFullMessage, List.mem_cons] at hx
            rcases hx with hx | hx
            · omega
            · have := h.1 x (by simpa using hx)
              simp at this
              omega
          · refine List.Pairwise.cons ?_ h.2
            intro y hy
            have := h.1 y hy
            simp [NewFullMessage] at this ⊢
            omega
        · have h := ih { lastState := s, seq := b.seq + 1, deltaCount := b.deltaCount + 1 }
          simp only [broadcasterRun, broadcasterStep, hE, hdc] at h ⊢
          constructor
          · intro x hx
            simp [NewDeltaMessage, List.mem_cons] at hx
            rcases hx with hx | hx
            · omega
            · have := h.1 x (by simpa using hx)
              simp at this
              omega
          · refine List.Pairwise.cons ?_ h.2
            intro y hy
            have := h.1 y hy
            simp [NewDeltaMessage] at this ⊢
            omega
    | tick =>
      by_cases hc : b.lastState.Connected
      · have h := ih { b with seq := b.seq + 1 }
        simp only [broadcasterRun, broadcasterStep, hc] at h ⊢
        constructor
        · intro x hx
          simp [NewFullMessage, List.mem_cons] at hx
          rcases hx with hx | hx
          · omega
          · have := h.1 x (by simpa using hx)
            simp at this
            omega
        · refine List.Pairwise.cons ?_ h.2
          intro y hy
          have := h.1 y hy
          simp [NewFullMessage] at this ⊢
          omega
      · simpa [broadcasterRun, broadcasterStep, hc] using ih b

/-- C5 (amended): the `seq` values of the full and delta envelopes emitted
by the broadcaster are strictly increasing — and so is every subsequence of
them a client can receive after drops.  (`player_selected` confirmations are
excluded: `NewPlayerSelectedMessage` always carries `seq = 0`.) -/
theorem broadcaster_seq_strictMono (b : BState) (evs : List BEvent)
    (l : List Int)
    (hsub : l.Sublist ((broadcasterRun b evs).map WSMessage.Seq)) :
    l.Chain' (· < ·) :=
  List.Pairwise.chain' (((broadcasterRun_seq_lt evs b).2).sublist hsub)

/-- Witness for C5 (amended): a delta then a timer full carry seqs 1 < 2. -/
theorem broadcaster_seq_strictMono_witness :
    ((broadcasterRun (BState.mk GamepadState.zero 0 0)
        [BEvent.change stConnected, BEvent.tick]).map WSMessage.Seq).Chain'
      (· < ·) :=
  broadcaster_seq_strictMono (BState.mk GamepadState.zero 0 0)
    [BEvent.change stConnected, BEvent.tick] _ (List.Sublist.refl _)

/-- The envelopes received by one client session: the initial full snapshot
pushed at registration, then the `player_selected` confirmation for a
successful player switch. -/
def sessionC5 : List WSMessage :=
  (SendInitialState (BState.mk GamepadState.zero 0 0)).2 ::
    (handleClientMessage (fun _ => true) (ClientSession.mk 1)
      (ClientMessage.mk "select_player" 2)).2.1

/-- Counterexample to C5 as stated: a session that receives the initial full
envelope (`seq = 1`) and then a `player_selected` confirmation (`seq = 0`,
hard-coded) does not see strictly increasing `seq` values. -/
theorem playerSelected_seq_cex :
    ¬ (sessionC5.map WSMessage.Seq).Chain' (· < ·) := by
  have h : sessionC5.map WSMessage.Seq = [1, 0] := rfl
  rw [h]
  norm_num [List.chain'_cons, List.chain'_singleton]

/-! ### C4: count-based full resync

`DRuns k l` bounds the runs of consecutive `"delta"` message types in `l`:
the leading run has length at most `k`, and every run after a `"full"` has
length at most 99 (the broadcaster forces the 100th consecutive emission to
be a full). -/

inductive DRuns : Nat → List String → Prop where
  | nil : ∀ k, DRuns k []
  | delta : ∀ k l, DRuns k l → DRuns (k + 1) ("delta" :: l)
  | full : ∀ k l, DRuns 99 l → DRuns k ("full" :: l)

lemma DRuns_mono {k k' : Nat} {l : List String} (h : DRuns k l)
    (hkk : k ≤ k') : DRuns k' l := by
  induction h generalizing k' with
  | nil _ => exact DRuns.nil _
  | delta k0 l0 h0 ih =>
    obtain ⟨m, rfl⟩ : ∃ m, k' = m + 1 := ⟨k' - 1, by omega⟩
    exact DRuns.delta m l0 (ih (by omega))
  | full k0 l0 h0 _ => exact DRuns.full _ _ h0

lemma DRuns_all_delta_bound {k : Nat} {l : List String} (h : DRuns k l) :
    ∀ w t, l = w ++ t → "full" ∉ w → w.length ≤ k := by
  induction h with
  | nil k0 =>
    intro w t hw _
    have hz := List.append_eq_nil.mp hw.symm
    simp [hz.1]
  | delta k0 l0 h0 ih =>
    intro w t hw hnf
    cases w with
    | nil => simp
    | cons a w' =>
      simp only [List.cons_append, List.cons.injEq] at hw
      have hb := ih w' t hw.2 (fun hm => hnf (List.mem_cons_of_mem _ hm))
      simpa using Nat.succ_le_succ hb
  | full k0 l0 h0 ih =>
    intro w t hw hnf
    cases w with
    | nil => simp
    | cons a w' =>
      simp only [List.cons_append, List.cons.injEq] at hw
      exact absurd (hw.1 ▸ List.mem_cons_self _ _) hnf

lemma DRuns_suffix {k : Nat} {l : List String} (h : DRuns k l) :
    ∀ u s, l = u ++ s → DRuns (max k 99) s := by
  induction h with
  | nil k0 =>
    intro u s hus
    have hz := List.append_eq_nil.mp hus.symm
    rw [hz.2]
    exact DRuns.nil _
  | delta k0 l0 h0 ih =>
    intro u s hus
    cases u with
    | nil =>
      simp only [List.nil_append] at hus
      rw [← hus]
      exact DRuns_mono (DRuns.delta _ _ h0) (le_max_left _ _)
    | cons a u' =>
      simp only [List.cons_append, List.cons.injEq] at hus
      exact DRuns_mono (ih u' s hus.2) (by omega)
  | full k0 l0 h0 ih =>
    intro u s hus
    cases u with
    | nil =>
      simp only [List.nil_append] at hus
      rw [← hus]
      exact DRuns_mono (DRuns.full _ _ h0) (le_max_left _ _)
    | cons a u' =>
      simp only [List.cons_append, List.cons.injEq] at hus
      exact DRuns_mono (ih u' s hus.2) (by omega)

lemma broadcasterRun_DRuns : ∀ (evs : List BEvent) (b : BState),
    0 ≤ b.deltaCount → b.deltaCount ≤ 99 →
    DRuns (99 - b.deltaCount).toNat ((broadcasterRun b evs).map WSMessage.type) := by
  intro evs
  induction evs with
  | nil =>
    intro b _ _
    exact DRuns.nil _
  | cons e es ih =>
    intro b h0 h99
    cases e with
    | change s =>
      by_cases hE : (ComputeDelta b.lastState s).IsEmpty
      · simpa [broadcasterRun, broadcasterStep, hE] using
          ih { b with lastState := s } h0 h99
      · by_cases hdc : b.deltaCount + 1 ≥ deltaCountSync
        · have hrest := ih { lastState := s, seq := b.seq + 1, deltaCount := 0 }
            (by norm_num) (by norm_num)
          simp only [broadcasterRun, broadcasterStep, hE, hdc, if_true, if_false,
            Bool.false_eq_true, ite_false, ite_true, List.map_cons, List.map_append,
            NewFullMessage, List.singleton_append] at hrest ⊢
          exact DRuns.full _ _ (by simpa using hrest)
        · have hrest := ih { lastState := s, seq := b.seq + 1, deltaCount := b.deltaCount + 1 }
            (show (0 : Int) ≤ b.deltaCount + 1 by omega)
            (show b.deltaCount + 1 ≤ 99 by
              simp only [deltaCountSync] at hdc
              omega)
          simp only [broadcasterRun, broadcasterStep, hE, hdc, if_true, if_false,
            Bool.false_eq_true, ite_false, ite_true, List.map_cons, List.map_append,
            NewDeltaMessage, List.singleton_append] at hrest ⊢
          have hk : (99 - b.deltaCount).toNat = (99 - (b.deltaCount + 1)).toNat + 1 := by
            simp only [deltaCountSync] at hdc
            omega
          rw [hk]
          exact DRuns.delta _ _ (by simpa using hrest)
    | tick =>
      by_cases hc : b.lastState.Connected
      · have hrest := ih { b with seq := b.seq + 1 } h0 h99
        simp only [broadcasterRun, broadcasterStep, hc, if_true, ite_true,
          List.map_cons, List.map_append, NewFullMessage, List.singleton_append] at hrest ⊢
        exact DRuns.full _ _ (DRuns_mono hrest (by omega))
      · simpa [broadcasterRun, broadcasterStep, hc] using ih b h0 h99

/-- C4 (amended): starting from any broadcaster state whose consecutive-delta
counter is in range (it starts at 0 and a full is forced once it reaches
100, i.e. after at most 99 consecutive delta emissions), every window of 100
consecutive emitted envelopes contains at least one full envelope. -/
theorem broadcaster_count_resync (b : BState) (evs : List BEvent)
    (h0 : 0 ≤ b.deltaCount) (h99 : b.deltaCount ≤ 99)
    (u w t : List String)
    (hsplit : (broadcasterRun b evs).map WSMessage.type = u ++ (w ++ t))
    (hlen : w.length = 100) :
    "full" ∈ w := by
  by_contra hnf
  have hD := broadcasterRun_DRuns evs b h0 h99
  have hs := DRuns_suffix hD u (w ++ t) hsplit
  have hb := DRuns_all_delta_bound hs w t rfl hnf
  omega

/-- Fresh broadcaster state (`deltaCount` local variable starts at 0). -/
def bC4 : BState := BState.mk GamepadState.zero 0 0

/-- 100 change events alternating between a connected and a zero snapshot,
so every event produces a non-empty delta. -/
def evsC4 : List BEvent :=
  (List.range 100).map
    (fun n => BEvent.change (if n % 2 = 0 then stConnected else GamepadState.zero))

set_option maxRecDepth 100000 in
lemma runC4_types :
    (broadcasterRun bC4 evsC4).map WSMessage.type =
      List.replicate 99 "delta" ++ ["full"] := by decide

set_option maxRecDepth 100000 in
/-- Witness for C4 (amended): the 100-emission window of the concrete run
contains a full envelope. -/
theorem broadcaster_count_resync_witness :
    "full" ∈ ((broadcasterRun bC4 evsC4).map WSMessage.type) :=
  broadcaster_count_resync bC4 evsC4 (by decide) (by decide)
    [] ((broadcasterRun bC4 evsC4).map WSMessage.type) []
    (by simp)
    (by rw [runC4_types]; simp)

/-- Length of the maximal all-`"delta"` suffix of `l`: the number of
consecutive delta emissions immediately preceding the next emission. -/
def trailingDeltas (l : List String) : Nat :=
  (l.reverse.takeWhile (fun t => t == "delta")).length

set_option maxRecDepth 100000 in
/-- Counterexample to C4 as stated: in the concrete run, the count-forced
full envelope is emitted after only 99 consecutive delta emissions, not
after 100 — the claim that every full follows 100 consecutive delta
emissions fails at emission index 99. -/
theorem broadcaster_count_resync_cex :
    ¬ (∀ i, ((broadcasterRun bC4 evsC4).map WSMessage.type)[i]? = some "full" →
        trailingDeltas (((broadcasterRun bC4 evsC4).map WSMessage.type).take i) = 100) := by
  intro hcl
  have h := hcl 99 (by rw [runC4_types]; rfl)
  rw [runC4_types] at h
  exact absurd h (by decide)

end GameControllerView
